import Mathlib

/-!
Shallow embedding of the rate-limited DM outreach scheduler of the
CatharsisXAgentDMs repository.

Conventions used throughout:
* Instants are epoch milliseconds as `Nat` (the source uses `Date.now()`);
  the rate-limit handler compares epoch seconds, obtained as `now / 1000`
  exactly as the source computes `Math.floor(Date.now() / 1000)`.
* Calendar dates: the source derives the date key with
  `new Date().toISOString().split('T')[0]`, i.e. the UTC day of the instant.
  UTC day strings are in bijection with epoch-day indices, so we model a
  date as `now / 86400000` (`dateOfMs`).  The initial date key `''` is
  modelled as `none : Option Nat`.
* Within one call the source reads the clock more than once
  (`Date.now()` at entry and again when stamping `lastDMTime`); we use a
  single `now` per call, the standard same-instant idealisation.
* Persistence (`saveState` / `saveSentDMs`) only mirrors the in-memory
  values to disk; the embedding tracks the in-memory state.
-/

/-- UTC epoch-day index of an epoch-millisecond instant; stands for the
`toISOString().split('T')[0]` date key (the two are in bijection). -/
def dateOfMs (t : Nat) : Nat := t / 86400000

/-! ## `src/plugins/rateLimitHandler.ts` : class `RateLimitHandler` -/

/-- The mutable fields of the `RateLimitHandler` singleton. -/
structure RLState where
  monthlyCapExceeded : Bool
  monthlyCapResetTime : Nat
  dailyReadAttempts : Nat
  lastResetDate : Option Nat
  maxDailyReadAttempts : Nat
deriving Repr, DecidableEq

/-- Field initialisers of `RateLimitHandler` (the constructor also runs
`resetDailyCounterIfNeeded`, which we apply at the first use of the clock). -/
def initialRLState : RLState :=
  { monthlyCapExceeded := false
    monthlyCapResetTime := 0
    dailyReadAttempts := 0
    lastResetDate := none
    maxDailyReadAttempts := 50 }

/-- The `error.data` payload fields inspected by `parseTwitterError`. -/
structure ErrorData where
  title : String
  detail : Option String
  typ : String
deriving Repr, DecidableEq

/-- The provider error shape inspected by `parseTwitterError`:
`code`, `data`, and `error.rateLimit?.reset` (absent field = `none`). -/
structure TwitterError where
  code : Nat
  data : Option ErrorData
  rateLimitReset : Option Nat
deriving Repr, DecidableEq

/-- Character-list occurrence test: does `pat` occur contiguously in the
list?  (Empty `pat` occurs everywhere, as with JS `includes`.) -/
def listContains (pat : List Char) : List Char → Bool
  | [] => pat.isEmpty
  | c :: t => pat.isPrefixOf (c :: t) || listContains pat t

/-- `s.includes(pat)` on the underlying character lists. -/
def strContains (s pat : String) : Bool := listContains pat.data s.data

/-- The condition of `parseTwitterError`: a 429 whose `data` carries
`title === 'UsageCapExceeded'`, a `detail` containing
`'Monthly product cap'`, and the usage-capped problem `type`. -/
def isMonthlyCapError (e : TwitterError) : Bool :=
  (e.code == 429) &&
    (match e.data with
     | some d =>
         (d.title == ("UsageCapExceeded")) &&
         (match d.detail with
          | some s => strContains s ("Monthly product cap")
          | none => false) &&
         (d.typ == ("https://api.twitter.com/2/problems/usage-capped"))
     | none => false)

/-- `parseTwitterError` : returns `{ isMonthlyCapExceeded, resetTime }`,
where `resetTime` is `error.rateLimit?.reset` (possibly absent). -/
def parseTwitterError (e : TwitterError) : Bool × Option Nat :=
  if isMonthlyCapError e then (true, e.rateLimitReset) else (false, none)

/-- `handleTwitterError` : on a monthly-cap error set the flag and
`monthlyCapResetTime = resetTime || 0` (a missing reset becomes `0`);
otherwise only logging happens. -/
def handleTwitterError (s : RLState) (e : TwitterError) : RLState :=
  let p := parseTwitterError e
  if p.1 then
    { s with monthlyCapExceeded := true, monthlyCapResetTime := p.2.getD 0 }
  else s

/-- `RateLimitHandler.resetDailyCounterIfNeeded` : zero the read counter
when today's date key differs from the stored one. -/
def rlResetDailyCounterIfNeeded (s : RLState) (today : Nat) : RLState :=
  if s.lastResetDate ≠ some today then
    { s with dailyReadAttempts := 0, lastResetDate := some today }
  else s

/-- Result of `canMakeReadRequest`.  The source returns a bare boolean; the
two `false` branches are distinguished here by which check produced them,
mirroring the distinct log lines of each branch. -/
inductive ReadResult
  | allowed
  | deniedMonthlyCap
  | deniedDailyLimit
deriving Repr, DecidableEq

/-- The daily-limit tail of `canMakeReadRequest`. -/
def rlDailyCheck (s : RLState) : ReadResult × RLState :=
  if s.dailyReadAttempts ≥ s.maxDailyReadAttempts then (.deniedDailyLimit, s)
  else (.allowed, s)

/-- `canMakeReadRequest` : first the lazy daily reset, then the monthly-cap
check against `Math.floor(Date.now()/1000)` (clearing the flag once the
reset time has passed), then the daily read limit.  There is no
minimum-interval check in this function. -/
def canMakeReadRequest (s : RLState) (now : Nat) : ReadResult × RLState :=
  let s1 := rlResetDailyCounterIfNeeded s (dateOfMs now)
  if s1.monthlyCapExceeded then
    if now / 1000 < s1.monthlyCapResetTime then (.deniedMonthlyCap, s1)
    else rlDailyCheck { s1 with monthlyCapExceeded := false, monthlyCapResetTime := 0 }
  else rlDailyCheck s1

/-! ## `src/unnamed/part_001` : DM scheduler globals, `attemptDM`, server -/

/-- `DMS_PER_DAY_TARGET = 30`. -/
def DMS_PER_DAY_TARGET : Nat := 30

/-- `DM_INTERVAL = 5 * 60 * 1000` milliseconds.  (Its source comment reads
"24 minutes (60 per day)", but the value is 5 minutes.) -/
def DM_INTERVAL : Nat := 5 * 60 * 1000

/-- The module-level mutable state of `part_001`
(`lastDMTime`, `dailyDMs`, `lastResetDate`). -/
structure AgentState where
  lastDMTime : Nat
  dailyDMs : Nat
  lastResetDate : Option Nat
deriving Repr, DecidableEq

/-- Initial values: `lastDMTime = 0`, `dailyDMs = 0`, `lastResetDate = ''`. -/
def initialAgentState : AgentState :=
  { lastDMTime := 0, dailyDMs := 0, lastResetDate := none }

/-- `resetDailyCounterIfNeeded` of `part_001`. -/
def resetDailyCounterIfNeeded (s : AgentState) (today : Nat) : AgentState :=
  if s.lastResetDate ≠ some today then
    { s with dailyDMs := 0, lastResetDate := some today }
  else s

/-! ## `src/plugins/dmPlugin/dmManager.ts` : ledger and `findAndSendDM` -/

/-- The `sentDMs` object: recipient id to epoch-millis timestamp.  Modelled
as an association list where the newest binding shadows older ones, which
matches JS property assignment under lookup. -/
abbrev Ledger := List (String × Nat)

/-- `sentDMs[id]` read. -/
def lookupLedger (l : Ledger) (uid : String) : Option Nat := List.lookup uid l

/-- The dedup guard `if (sentDMs[userInfo.userId])` : JS truthiness, so a
stored timestamp of `0` does NOT count as contacted. -/
def isContactedTruthy (l : Ledger) (uid : String) : Bool :=
  match lookupLedger l uid with
  | some t => t != 0
  | none => false

/-- `sentDMs[id] = ts` : unconditional property assignment; on an already
present id it overwrites the stored timestamp (it never fails). -/
def ledgerInsert (l : Ledger) (uid : String) (t : Nat) : Ledger := (uid, t) :: l

/-- The exit point taken by one `findAndSendDM` run. -/
inductive DMOutcome
  | findFailed
  | alreadyContacted
  | genFailed
  | contentInvalid
  | sendFailed
  | sent
deriving Repr, DecidableEq

/-- The external collaborators consumed by one `findAndSendDM` run:
`find_target_user` (`none` = `Failed` status, `some uid` = `Done`),
the OpenAI completion after `trim` (`none` = the call threw), and whether
`send_dm` returned status `done`. -/
structure DMInputs where
  find : Option String
  gen : Option String
  sendOk : Bool
deriving Repr, DecidableEq

/-- `findAndSendDM` : find target, skip if already contacted (truthy
ledger entry), generate content, skip if shorter than 10 characters, send,
and only on a successful send record `sentDMs[userId] = Date.now()` and
persist.  Every failure path is caught inside the function, which
therefore always resolves (never rejects). -/
def findAndSendDM (l : Ledger) (now : Nat) (inp : DMInputs) : DMOutcome × Ledger :=
  match inp.find with
  | none => (.findFailed, l)
  | some uid =>
    if isContactedTruthy l uid then (.alreadyContacted, l)
    else
      match inp.gen with
      | none => (.genFailed, l)
      | some text =>
        if text.length < 10 then (.contentInvalid, l)
        else if inp.sendOk then (.sent, ledgerInsert l uid now)
        else (.sendFailed, l)

/-! ## Whole-process state and the composed attempt

`part_001` never imports `rateLimitHandler.ts`; the `RateLimitHandler`
singleton lives in the same process but is not consulted by the DM path.
We carry both in one record so cross-component claims (frame conditions,
monthly-cap questions) can be stated; `attemptFull` passes `rl` through
untouched exactly because the source never touches it there. -/

structure SystemState where
  agent : AgentState
  rl : RLState
  ledger : Ledger
deriving Repr, DecidableEq

/-- How one `attemptDM` call ends. -/
inductive AttemptOutcome
  | tooSoon
  | dailyTargetReached
  | completed (r : DMOutcome)
deriving Repr, DecidableEq

/-- `attemptDM` composed with `dmManager.startDMCampaign(0)` (which runs
`loadSentDMs` then `findAndSendDM`).  Order: capture `now`, compute
`timeSinceLastDM`, lazily reset the daily counter, deny if
`timeSinceLastDM < DM_INTERVAL`, deny if `dailyDMs >= DMS_PER_DAY_TARGET`,
else run the DM pipeline.  `findAndSendDM` catches all of its own errors
and so always resolves; hence the `await` in `attemptDM` never throws and
the success branch (`dailyDMs++; lastDMTime = Date.now(); saveState()`,
then the "DM sent successfully" log) runs after EVERY pipeline outcome —
the `catch` branch of `attemptDM` is unreachable from the pipeline. -/
def attemptFull (sys : SystemState) (now : Nat) (inp : DMInputs) :
    AttemptOutcome × SystemState :=
  let a := sys.agent
  let tooSoonB : Bool := decide ((now : Int) - (a.lastDMTime : Int) < (DM_INTERVAL : Int))
  let a1 := resetDailyCounterIfNeeded a (dateOfMs now)
  if tooSoonB then (.tooSoon, { sys with agent := a1 })
  else if a1.dailyDMs ≥ DMS_PER_DAY_TARGET then (.dailyTargetReached, { sys with agent := a1 })
  else
    let r := findAndSendDM sys.ledger now inp
    (.completed r.1,
      { sys with
        agent := { a1 with dailyDMs := a1.dailyDMs + 1, lastDMTime := now }
        ledger := r.2 })

/-- The HTTP responses of the `part_001` server (modulo the status text). -/
inductive HttpResponse
  | statusPage
  | dmAttemptCompleted
  | counterReset
  | notFound
deriving Repr, DecidableEq

/-- The `http.createServer` request handler: `/` renders status with no
mutation; `/send-dm` runs `attemptDM()` and, since that promise always
resolves, answers `'DM attempt completed'`; `/reset` sets `dailyDMs = 0`
and persists; anything else is 404. -/
def handleRequest (sys : SystemState) (now : Nat) (inp : DMInputs) (url : String) :
    HttpResponse × SystemState :=
  if url = "/" then (.statusPage, sys)
  else if url = "/send-dm" then
    let r := attemptFull sys now inp
    (.dmAttemptCompleted, r.2)
  else if url = "/reset" then
    (.counterReset, { sys with agent := { sys.agent with dailyDMs := 0 } })
  else (.notFound, sys)

/-! ## Interleaving model of triggers

`runScheduler` awaits its own `attemptDM()` before re-arming the timer, so
consecutive timer ticks are serialised with each other; but the HTTP
handler for `/send-dm` calls `attemptDM()` with no guard of any kind (the
program state has no busy flag), so a manual trigger starts an attempt
regardless of how many attempts are already in flight, and a timer tick
likewise runs regardless of a concurrently running manual attempt.
`SysConfig.inFlight` counts started-but-unfinished `attemptDM` calls; an
attempt's effects are applied when it finishes. -/

structure SysConfig where
  sys : SystemState
  inFlight : Nat
deriving Repr, DecidableEq

/-- Events of the interleaving model: a `POST /send-dm` arrival, a
`runScheduler` timer firing, and the completion of an in-flight attempt
(carrying the instant and collaborator results it ran with). -/
inductive SchedEvent
  | manualTrigger
  | timerFire
  | attemptFinish (now : Nat) (inp : DMInputs)
deriving Repr, DecidableEq

/-- One event: both trigger kinds start an attempt unconditionally —
neither handler consults any in-flight indicator, because none exists in
the source — and a finishing attempt applies its state transformation. -/
def applyEvent (c : SysConfig) (e : SchedEvent) : SysConfig :=
  match e with
  | .manualTrigger => { c with inFlight := c.inFlight + 1 }
  | .timerFire => { c with inFlight := c.inFlight + 1 }
  | .attemptFinish now inp =>
      { sys := (attemptFull c.sys now inp).2, inFlight := c.inFlight - 1 }

/-- Run a sequence of events. -/
def runEvents (c : SysConfig) (es : List SchedEvent) : SysConfig :=
  es.foldl applyEvent c

/-! ## Startup loading (`loadState` of `part_001`,
`loadSentDMs` of `dmManager.ts`) -/

/-- A parsed `dm_state.json`: each field may be absent and is defaulted
with `|| 0` (for the date key, `|| ''`; `none` models both an absent field
and the falsy `''`). -/
structure PersistedAgent where
  lastDMTime : Option Nat
  dailyDMs : Option Nat
  lastResetDate : Option Nat
deriving Repr, DecidableEq

/-- `loadState` : `none` = file missing (`existsSync` false: globals keep
their initial values); `some none` = file unreadable or invalid JSON
(`JSON.parse` throws before any assignment, the `catch` only logs, so the
globals again keep their initial values); `some (some p)` = parsed state,
fields defaulted by `||`.  The function is total: no load failure is ever
propagated as a startup error. -/
def loadState : Option (Option PersistedAgent) → AgentState
  | none => initialAgentState
  | some none => initialAgentState
  | some (some p) =>
      { lastDMTime := p.lastDMTime.getD 0
        dailyDMs := p.dailyDMs.getD 0
        lastResetDate := p.lastResetDate }

/-- `loadSentDMs` of `dmManager.ts` : missing file keeps `sentDMs = {}`
(and writes a fresh file); a read/parse error is caught and sets
`sentDMs = {}`.  Total: never a startup error. -/
def loadSentDMs : Option (Option Ledger) → Ledger
  | none => []
  | some none => []
  | some (some l) => l

/-! # Theorems -/

/-! Helper lemmas: the lazy daily reset does not touch the monthly-cap
fields or the configured maximum. -/

@[simp]
theorem rlReset_monthlyCapExceeded (s : RLState) (t : Nat) :
    (rlResetDailyCounterIfNeeded s t).monthlyCapExceeded = s.monthlyCapExceeded := by
  unfold rlResetDailyCounterIfNeeded; split <;> rfl

@[simp]
theorem rlReset_monthlyCapResetTime (s : RLState) (t : Nat) :
    (rlResetDailyCounterIfNeeded s t).monthlyCapResetTime = s.monthlyCapResetTime := by
  unfold rlResetDailyCounterIfNeeded; split <;> rfl

@[simp]
theorem rlReset_maxDailyReadAttempts (s : RLState) (t : Nat) :
    (rlResetDailyCounterIfNeeded s t).maxDailyReadAttempts = s.maxDailyReadAttempts := by
  unfold rlResetDailyCounterIfNeeded; split <;> rfl

/-- A provider error that parses as a monthly-cap signal with reset 1000. -/
def capErr1000 : TwitterError :=
  ⟨429,
   some ⟨"UsageCapExceeded", some ("Monthly product cap exceeded"),
         "https://api.twitter.com/2/problems/usage-capped"⟩,
   some 1000⟩

/-- The same provider error with the `rateLimit.reset` field absent. -/
def capErrNoReset : TwitterError :=
  ⟨429,
   some ⟨"UsageCapExceeded", some ("Monthly product cap exceeded"),
         "https://api.twitter.com/2/problems/usage-capped"⟩,
   none⟩

/-! Branch characterisations of `canMakeReadRequest` and `rlDailyCheck`. -/

theorem rlDailyCheck_snd (s : RLState) : (rlDailyCheck s).2 = s := by
  unfold rlDailyCheck; split <;> rfl

theorem rlDailyCheck_fst_cases (s : RLState) :
    (rlDailyCheck s).1 = .allowed ∨ (rlDailyCheck s).1 = .deniedDailyLimit := by
  unfold rlDailyCheck; split
  · exact Or.inr rfl
  · exact Or.inl rfl

theorem rlDailyCheck_fst_ne_monthlyCap (s : RLState) :
    (rlDailyCheck s).1 ≠ .deniedMonthlyCap := by
  unfold rlDailyCheck; split <;> simp

theorem rlDailyCheck_allowed_iff (s : RLState) :
    (rlDailyCheck s).1 = .allowed ↔ s.dailyReadAttempts < s.maxDailyReadAttempts := by
  unfold rlDailyCheck; split
  · rename_i h
    simp only [reduceCtorEq, false_iff, Nat.not_lt]
    exact h
  · rename_i h
    simp only [true_iff]
    exact Nat.lt_of_not_le h

theorem canMake_cap_lt (s : RLState) (now : Nat)
    (hcap : s.monthlyCapExceeded = true) (hlt : now / 1000 < s.monthlyCapResetTime) :
    canMakeReadRequest s now =
      (.deniedMonthlyCap, rlResetDailyCounterIfNeeded s (dateOfMs now)) := by
  unfold canMakeReadRequest
  simp only [rlReset_monthlyCapExceeded, rlReset_monthlyCapResetTime, hcap, hlt,
    if_true, ite_true]

theorem canMake_cap_ge (s : RLState) (now : Nat)
    (hcap : s.monthlyCapExceeded = true) (hge : s.monthlyCapResetTime ≤ now / 1000) :
    canMakeReadRequest s now =
      rlDailyCheck { rlResetDailyCounterIfNeeded s (dateOfMs now) with
                     monthlyCapExceeded := false, monthlyCapResetTime := 0 } := by
  unfold canMakeReadRequest
  simp only [rlReset_monthlyCapExceeded, rlReset_monthlyCapResetTime, hcap, if_true, ite_true]
  rw [if_neg (Nat.not_lt.mpr hge)]

theorem canMake_nocap (s : RLState) (now : Nat) (hcap : s.monthlyCapExceeded = false) :
    canMakeReadRequest s now = rlDailyCheck (rlResetDailyCounterIfNeeded s (dateOfMs now)) := by
  unfold canMakeReadRequest
  simp only [rlReset_monthlyCapExceeded, hcap, Bool.false_eq_true, if_false, ite_false]

/-- C3: after `handleTwitterError` records a monthly-cap signal carrying
reset time `T` (epoch seconds), every `canMakeReadRequest` whose current
second is strictly before `T` is denied by the monthly-cap branch with the
flag kept set, and any call at or after `T` clears the flag, is not denied
for the monthly cap, and is allowed exactly when the (lazily reset) daily
read counter is below the daily maximum. -/
theorem monthly_cap_enforced_until_reset (s : RLState) (e : TwitterError) (T : Nat)
    (hp : parseTwitterError e = (true, some T)) :
    (handleTwitterError s e).monthlyCapExceeded = true ∧
    (handleTwitterError s e).monthlyCapResetTime = T ∧
    (∀ now : Nat, now / 1000 < T →
      (canMakeReadRequest (handleTwitterError s e) now).1 = .deniedMonthlyCap ∧
      (canMakeReadRequest (handleTwitterError s e) now).2.monthlyCapExceeded = true) ∧
    (∀ now : Nat, T ≤ now / 1000 →
      (canMakeReadRequest (handleTwitterError s e) now).2.monthlyCapExceeded = false ∧
      (canMakeReadRequest (handleTwitterError s e) now).1 ≠ .deniedMonthlyCap ∧
      ((canMakeReadRequest (handleTwitterError s e) now).1 = .allowed ↔
        (rlResetDailyCounterIfNeeded (handleTwitterError s e) (dateOfMs now)).dailyReadAttempts
          < s.maxDailyReadAttempts)) := by
  have hs : handleTwitterError s e =
      { s with monthlyCapExceeded := true, monthlyCapResetTime := T } := by
    simp [handleTwitterError, hp]
  refine ⟨by rw [hs], by rw [hs], ?_, ?_⟩
  · intro now hlt
    rw [canMake_cap_lt (handleTwitterError s e) now (by rw [hs]) (by rw [hs]; exact hlt)]
    exact ⟨rfl, by simp [hs]⟩
  · intro now hge
    rw [canMake_cap_ge (handleTwitterError s e) now (by rw [hs]) (by rw [hs]; exact hge)]
    refine ⟨?_, ?_, ?_⟩
    · rw [rlDailyCheck_snd]
    · exact rlDailyCheck_fst_ne_monthlyCap _
    · rw [rlDailyCheck_allowed_iff]
      simp [hs]

/-- C3 witness: with the concrete error `capErr1000` (reset second 1000),
the call at second 5 is denied for the monthly cap and the call at second
2000 has the flag cleared. -/
theorem monthly_cap_enforced_until_reset_witness :
    (canMakeReadRequest (handleTwitterError initialRLState capErr1000) 5000).1
        = .deniedMonthlyCap ∧
    (canMakeReadRequest (handleTwitterError initialRLState capErr1000) 2000000).2.monthlyCapExceeded
        = false := by
  have h := monthly_cap_enforced_until_reset initialRLState capErr1000 1000 (by decide)
  exact ⟨(h.2.2.1 5000 (by decide)).1, (h.2.2.2 2000000 (by decide)).1⟩

/-- C10: when `handleTwitterError` receives a monthly-cap error whose
`rateLimit.reset` field is absent, it sets the flag but stores reset time
0, and then every later `canMakeReadRequest`, at any current time, clears
the flag and is never denied for the monthly cap: the recorded cap is
never enforced. -/
theorem absent_reset_time_cap_unenforced (s : RLState) (e : TwitterError) (now : Nat)
    (hp : parseTwitterError e = (true, none)) :
    (handleTwitterError s e).monthlyCapExceeded = true ∧
    (handleTwitterError s e).monthlyCapResetTime = 0 ∧
    (canMakeReadRequest (handleTwitterError s e) now).2.monthlyCapExceeded = false ∧
    (canMakeReadRequest (handleTwitterError s e) now).1 ≠ .deniedMonthlyCap := by
  have hs : handleTwitterError s e =
      { s with monthlyCapExceeded := true, monthlyCapResetTime := 0 } := by
    simp [handleTwitterError, hp]
  rw [canMake_cap_ge (handleTwitterError s e) now (by rw [hs]) (by rw [hs]; exact Nat.zero_le _)]
  refine ⟨by rw [hs], by rw [hs], by rw [rlDailyCheck_snd], ?_⟩
  exact rlDailyCheck_fst_ne_monthlyCap _

/-- C10 witness: the concrete error `capErrNoReset` records an unenforced
cap; the very next read check, at any time (here 5 ms), clears it. -/
theorem absent_reset_time_cap_unenforced_witness :
    (handleTwitterError initialRLState capErrNoReset).monthlyCapExceeded = true ∧
    (canMakeReadRequest (handleTwitterError initialRLState capErrNoReset) 5).1
      ≠ .deniedMonthlyCap := by
  have h := absent_reset_time_cap_unenforced initialRLState capErrNoReset 5 (by decide)
  exact ⟨h.1, h.2.2.2⟩

/-- C9: startup loading is total and lenient.  A missing `dm_state.json`
(`none`) or an unreadable/corrupt one (`some none`, where `JSON.parse`
throws and the `catch` only logs) leaves the scheduler state at its
defaults, and likewise a missing or corrupt `sent_dms.json` yields the
empty ledger.  Both loaders are total functions: no load failure is ever
surfaced as a startup error. -/
theorem load_tolerates_missing_and_corrupt :
    loadState none = initialAgentState ∧
    loadState (some none) = initialAgentState ∧
    loadSentDMs none = ([] : Ledger) ∧
    loadSentDMs (some none) = ([] : Ledger) :=
  ⟨rfl, rfl, rfl, rfl⟩

/-- C8: the `/reset` endpoint answers `'Counter reset'`, zeroes `dailyDMs`,
and changes nothing else: `lastDMTime`, `lastResetDate`, the whole
rate-limit handler state (monthly-cap flag and reset time included), and
the recipient ledger are untouched. -/
theorem reset_endpoint_frame (sys : SystemState) (now : Nat) (inp : DMInputs) :
    (handleRequest sys now inp ("/reset")).1 = .counterReset ∧
    (handleRequest sys now inp ("/reset")).2.agent.dailyDMs = 0 ∧
    (handleRequest sys now inp ("/reset")).2.agent.lastDMTime = sys.agent.lastDMTime ∧
    (handleRequest sys now inp ("/reset")).2.agent.lastResetDate = sys.agent.lastResetDate ∧
    (handleRequest sys now inp ("/reset")).2.rl = sys.rl ∧
    (handleRequest sys now inp ("/reset")).2.ledger = sys.ledger := by
  have h1 : ¬ (("/reset" : String) = "/") := by decide
  have h2 : ¬ (("/reset" : String) = "/send-dm") := by decide
  unfold handleRequest
  rw [if_neg h1, if_neg h2, if_pos rfl]
  exact ⟨rfl, rfl, rfl, rfl, rfl, rfl⟩

/-- Collaborator results for a fresh, successful attempt: target user "7",
a generated text of 18 characters, and a send that returns `done`. -/
def inpFresh : DMInputs := ⟨some ("7"), some ("hello there friend"), true⟩

/-- C7: the spacing scenario of the spec fails on the code because
`DM_INTERVAL` is 300000 ms (5 minutes), not the 24 minutes its own source
comment announces.  With the last action recorded at t = 0 and one action
counted, the check at t = 10 min (600000 ms) is NOT denied as too soon:
the attempt proceeds all the way to a successful send. -/
theorem interval_five_minutes_not_twentyfour :
    DM_INTERVAL = 300000 ∧
    (attemptFull ⟨⟨0, 1, some 0⟩, initialRLState, []⟩ 600000 inpFresh).1
      = .completed .sent ∧
    (attemptFull ⟨⟨0, 1, some 0⟩, initialRLState, []⟩ 600000 inpFresh).1
      ≠ .tooSoon := by decide

/-- C2: quota is spent on an attempt whose outcome is a skip.  With
recipient "42" already in the ledger, `findAndSendDM` skips without
sending — yet `attemptDM` still increments `dailyDMs` (0 to 1) and stamps
`lastDMTime := now`, because `findAndSendDM` catches every failure
internally, so the awaited promise always resolves and the success branch
of `attemptDM` runs for every outcome.  The ledger itself is unchanged,
and no provider-cap signal is recorded anywhere in this flow (the
rate-limit handler state is untouched). -/
theorem quota_spent_on_skipped_attempt :
    attemptFull ⟨⟨0, 0, some 0⟩, initialRLState, [("42", 100)]⟩ 600000
        ⟨some ("42"), some ("hello there friend"), true⟩
      = (.completed .alreadyContacted,
         ⟨⟨600000, 1, some 0⟩, initialRLState, [("42", 100)]⟩) := by decide

/-! Branch characterisations of `attemptFull` (shared by several claims). -/

theorem attemptFull_tooSoon (sys : SystemState) (now : Nat) (inp : DMInputs)
    (h : (now : Int) - sys.agent.lastDMTime < DM_INTERVAL) :
    attemptFull sys now inp =
      (.tooSoon, { sys with agent := resetDailyCounterIfNeeded sys.agent (dateOfMs now) }) := by
  simp only [attemptFull, decide_eq_true_eq]
  rw [if_pos h]

theorem attemptFull_dailyCap (sys : SystemState) (now : Nat) (inp : DMInputs)
    (h1 : (DM_INTERVAL : Int) ≤ (now : Int) - sys.agent.lastDMTime)
    (h2 : DMS_PER_DAY_TARGET ≤ (resetDailyCounterIfNeeded sys.agent (dateOfMs now)).dailyDMs) :
    attemptFull sys now inp =
      (.dailyTargetReached,
       { sys with agent := resetDailyCounterIfNeeded sys.agent (dateOfMs now) }) := by
  simp only [attemptFull, decide_eq_true_eq]
  rw [if_neg (Int.not_lt.mpr h1), if_pos h2]

theorem attemptFull_proceeds (sys : SystemState) (now : Nat) (inp : DMInputs)
    (h1 : (DM_INTERVAL : Int) ≤ (now : Int) - sys.agent.lastDMTime)
    (h2 : (resetDailyCounterIfNeeded sys.agent (dateOfMs now)).dailyDMs < DMS_PER_DAY_TARGET) :
    attemptFull sys now inp =
      (.completed (findAndSendDM sys.ledger now inp).1,
       { sys with
         agent := { resetDailyCounterIfNeeded sys.agent (dateOfMs now) with
                    dailyDMs := (resetDailyCounterIfNeeded sys.agent (dateOfMs now)).dailyDMs + 1,
                    lastDMTime := now }
         ledger := (findAndSendDM sys.ledger now inp).2 }) := by
  simp only [attemptFull, decide_eq_true_eq]
  rw [if_neg (Int.not_lt.mpr h1), if_neg (Nat.not_le.mpr h2)]

theorem attemptFull_rl (sys : SystemState) (now : Nat) (inp : DMInputs) :
    (attemptFull sys now inp).2.rl = sys.rl := by
  simp only [attemptFull]
  split
  · rfl
  · split <;> rfl

/-- A state whose rate-limit handler has the monthly cap recorded as
exceeded far into the future, while the DM scheduler side is fresh. -/
def sysCapEx : SystemState := ⟨⟨0, 0, some 0⟩, ⟨true, 99999999, 0, some 0, 50⟩, []⟩

/-- C1 counterexample: the DM attempt path has no monthly-cap check at
all.  In `sysCapEx` the monthly cap is exceeded and `now` (second 600) is
far before the reset time, so the claimed first check would deny with
MonthlyCapExceeded — but the attempt proceeds to a successful send. -/
theorem monthlyCap_not_checked_by_attempt :
    sysCapEx.rl.monthlyCapExceeded = true ∧
    600000 / 1000 < sysCapEx.rl.monthlyCapResetTime ∧
    (attemptFull sysCapEx 600000 inpFresh).1 = .completed .sent := by decide

/-- C1 (amended): there is no single four-check `canAct`.  The read-path
check `canMakeReadRequest` evaluates, in order: lazy daily reset FIRST,
then the monthly-cap check (clearing the flag when the reset time has
passed), then the daily read cap — and no minimum-interval check.  The DM
attempt path evaluates: lazy daily reset, then the minimum-interval check
(`now - lastDMTime < DM_INTERVAL`, no retryAfter value is returned), then
the daily target — and no monthly-cap check (its `.rl` frame conjunct:
the rate-limit state is never consulted or changed). -/
theorem quota_checks_split_order :
    (∀ (s : RLState) (now : Nat),
      (s.monthlyCapExceeded = true → now / 1000 < s.monthlyCapResetTime →
        canMakeReadRequest s now =
          (.deniedMonthlyCap, rlResetDailyCounterIfNeeded s (dateOfMs now))) ∧
      (s.monthlyCapExceeded = true → s.monthlyCapResetTime ≤ now / 1000 →
        canMakeReadRequest s now =
          rlDailyCheck { rlResetDailyCounterIfNeeded s (dateOfMs now) with
                         monthlyCapExceeded := false, monthlyCapResetTime := 0 }) ∧
      (s.monthlyCapExceeded = false →
        canMakeReadRequest s now =
          rlDailyCheck (rlResetDailyCounterIfNeeded s (dateOfMs now)))) ∧
    (∀ (sys : SystemState) (now : Nat) (inp : DMInputs),
      ((now : Int) - sys.agent.lastDMTime < DM_INTERVAL →
        attemptFull sys now inp =
          (.tooSoon, { sys with agent := resetDailyCounterIfNeeded sys.agent (dateOfMs now) })) ∧
      ((DM_INTERVAL : Int) ≤ (now : Int) - sys.agent.lastDMTime →
        DMS_PER_DAY_TARGET ≤ (resetDailyCounterIfNeeded sys.agent (dateOfMs now)).dailyDMs →
        attemptFull sys now inp =
          (.dailyTargetReached,
           { sys with agent := resetDailyCounterIfNeeded sys.agent (dateOfMs now) })) ∧
      ((DM_INTERVAL : Int) ≤ (now : Int) - sys.agent.lastDMTime →
        (resetDailyCounterIfNeeded sys.agent (dateOfMs now)).dailyDMs < DMS_PER_DAY_TARGET →
        attemptFull sys now inp =
          (.completed (findAndSendDM sys.ledger now inp).1,
           { sys with
             agent := { resetDailyCounterIfNeeded sys.agent (dateOfMs now) with
                        dailyDMs := (resetDailyCounterIfNeeded sys.agent (dateOfMs now)).dailyDMs + 1,
                        lastDMTime := now }
             ledger := (findAndSendDM sys.ledger now inp).2 })) ∧
      (attemptFull sys now inp).2.rl = sys.rl) :=
  ⟨fun s now => ⟨canMake_cap_lt s now, canMake_cap_ge s now, canMake_nocap s now⟩,
   fun sys now inp =>
     ⟨attemptFull_tooSoon sys now inp, attemptFull_dailyCap sys now inp,
      attemptFull_proceeds sys now inp, attemptFull_rl sys now inp⟩⟩

/-- C1 witness: the split checks at concrete inputs — a monthly-cap
denial on the read path at second 5, and a too-soon denial on the DM path
one minute after the last send. -/
theorem quota_checks_split_order_witness :
    canMakeReadRequest ⟨true, 1000, 3, some 0, 50⟩ 5000
      = (.deniedMonthlyCap, ⟨true, 1000, 3, some 0, 50⟩) ∧
    (attemptFull ⟨⟨0, 2, some 0⟩, initialRLState, []⟩ 60000 inpFresh).1 = .tooSoon := by
  constructor
  · have h := (quota_checks_split_order.1 ⟨true, 1000, 3, some 0, 50⟩ 5000).1 rfl (by decide)
    rw [h]
    decide
  · have h := (quota_checks_split_order.2 ⟨⟨0, 2, some 0⟩, initialRLState, []⟩ 60000 inpFresh).1
      (by decide)
    rw [h]

/-- A system state whose last DM was at instant 0, five DMs counted on
epoch day 0, fresh rate-limit handler and empty ledger. -/
def sysIdle : SystemState := ⟨⟨0, 5, some 0⟩, initialRLState, []⟩

/-- C4 counterexample: starting with no attempt in flight, a timer tick
starts an attempt, and a manual trigger arriving while that attempt is
still in flight starts a SECOND one — two attempts in flight at once,
nothing rejected. -/
theorem two_attempts_in_flight :
    (runEvents ⟨sysIdle, 0⟩ [.timerFire, .manualTrigger]).inFlight = 2 := by decide

/-- C4 (amended): no trigger is ever rejected as busy.  Both a manual
trigger and a timer tick unconditionally start one more in-flight attempt
from every configuration — including configurations that already have an
attempt in flight — and the HTTP answer of `/send-dm` is always the
constant `'DM attempt completed'`; no busy response exists. -/
theorem triggers_never_rejected_busy :
    (∀ c : SysConfig,
      (applyEvent c .manualTrigger).inFlight = c.inFlight + 1 ∧
      (applyEvent c .timerFire).inFlight = c.inFlight + 1 ∧
      (applyEvent c .manualTrigger).sys = c.sys ∧
      (applyEvent c .timerFire).sys = c.sys) ∧
    (∀ (sys : SystemState) (now : Nat) (inp : DMInputs),
      (handleRequest sys now inp ("/send-dm")).1 = .dmAttemptCompleted) := by
  constructor
  · intro c
    exact ⟨rfl, rfl, rfl, rfl⟩
  · intro sys now inp
    have h1 : ¬ (("/send-dm" : String) = "/") := by decide
    unfold handleRequest
    rw [if_neg h1, if_pos rfl]

/-- C5 counterexample: a manual `/send-dm` trigger one minute after the
last DM is stopped by the very spacing check it was claimed to bypass
(outcome too-soon, state unchanged, nothing sent), and the HTTP answer is
the fixed text `'DM attempt completed'`, not the attempt's outcome. -/
theorem manual_trigger_not_bypassing :
    handleRequest sysIdle 60000 inpFresh ("/send-dm") = (.dmAttemptCompleted, sysIdle) ∧
    (attemptFull sysIdle 60000 inpFresh).1 = .tooSoon := by decide

/-- C5 (amended): `/send-dm` runs exactly the same `attemptDM` as the
scheduler: the response is always `'DM attempt completed'` with the state
of that attempt; the attempt performs no monthly-cap check (the
rate-limit state is passed through untouched); and the spacing and
daily-cap checks are enforced, not bypassed. -/
theorem manual_trigger_same_checks (sys : SystemState) (now : Nat) (inp : DMInputs) :
    handleRequest sys now inp ("/send-dm")
      = (.dmAttemptCompleted, (attemptFull sys now inp).2) ∧
    (attemptFull sys now inp).2.rl = sys.rl ∧
    ((now : Int) - sys.agent.lastDMTime < DM_INTERVAL →
      (attemptFull sys now inp).1 = .tooSoon) ∧
    ((DM_INTERVAL : Int) ≤ (now : Int) - sys.agent.lastDMTime →
      DMS_PER_DAY_TARGET ≤ (resetDailyCounterIfNeeded sys.agent (dateOfMs now)).dailyDMs →
      (attemptFull sys now inp).1 = .dailyTargetReached) := by
  refine ⟨?_, attemptFull_rl sys now inp, ?_, ?_⟩
  · have h1 : ¬ (("/send-dm" : String) = "/") := by decide
    unfold handleRequest
    rw [if_neg h1, if_pos rfl]
  · intro h
    rw [attemptFull_tooSoon sys now inp h]
  · intro h1 h2
    rw [attemptFull_dailyCap sys now inp h1 h2]

/-- C5 witness: a manual trigger 100 seconds after the last DM hits the
spacing check. -/
theorem manual_trigger_same_checks_witness :
    (attemptFull ⟨⟨0, 7, some 0⟩, initialRLState, []⟩ 100000 inpFresh).1 = .tooSoon :=
  (manual_trigger_same_checks ⟨⟨0, 7, some 0⟩, initialRLState, []⟩ 100000 inpFresh).2.2.1
    (by decide)

/-- C6 counterexample: the raw record-contacted operation
(`sentDMs[id] = ts`) does NOT fail on an already-present id: recording
"42" again succeeds, changes the ledger, and overwrites the stored
timestamp (100 becomes 200).  No DuplicateRecipient failure exists. -/
theorem ledger_insert_overwrites :
    ledgerInsert [("42", 100)] ("42") 200 ≠ [("42", 100)] ∧
    lookupLedger (ledgerInsert [("42", 100)] ("42") 200) ("42") = some 200 := by decide

/-- C6 (amended): deduplication is enforced only by the pre-send guard:
when the ledger holds a nonzero timestamp for the target id,
`findAndSendDM` skips before generating or sending anything and leaves
the ledger unchanged; the insertion itself is unconditional and never
fails. -/
theorem dedup_via_precheck (l : Ledger) (uid : String) (t now : Nat) (inp : DMInputs)
    (hfind : inp.find = some uid) (hl : lookupLedger l uid = some t) (ht : t ≠ 0) :
    findAndSendDM l now inp = (.alreadyContacted, l) := by
  have hc : isContactedTruthy l uid = true := by
    unfold isContactedTruthy
    rw [hl]
    simpa using ht
  simp [findAndSendDM, hfind, hc]

/-- C6 witness: recipient "42", contacted at instant 100, is skipped. -/
theorem dedup_via_precheck_witness :
    findAndSendDM [("42", 100)] 600000 ⟨some ("42"), some ("hello there friend"), true⟩
      = (.alreadyContacted, [("42", 100)]) :=
  dedup_via_precheck [("42", 100)] ("42") 100 600000
    ⟨some ("42"), some ("hello there friend"), true⟩ rfl (by decide) (by decide)
